import Mathlib

/-!
Shallow embedding of vsixget (src/vsixget.py), a downloader for VS Code
extension packages, together with theorems checking the natural-language
specification against the code.

Modelling conventions:
  - Strings are Lean `String`s; character-level scanning is done on
    `List Char` via `String.toList`.
  - Network traffic is an oracle: a function from the attempt index to the
    outcome the server produced for that attempt.  The code under
    verification never inspects anything about a response beyond what the
    outcome type records.
  - The filesystem relevant to one run is the pair (temporary file,
    destination file), each `Option (List Nat)` (absent, or present with
    byte content).
  - Opening a file as a ZIP archive is an oracle `List Nat → ZipResult`
    standing for `zipfile.ZipFile` + `namelist()`.
  - `time.sleep` calls are recorded as a list of slept durations (seconds).
-/

/-- Constant MAX_RETRIES from vsixget.py. -/
def MAX_RETRIES : Nat := 3

/-- Constant DEFAULT_TIMEOUT (seconds) from vsixget.py. -/
def DEFAULT_TIMEOUT : Nat := 10

/-! ### Character-level string helpers (Python `str.split(c, 1)` etc.) -/

/-- Split a character list at the first occurrence of `c`: returns the part
before and the part after, or `none` when `c` does not occur.  This is the
semantics of Python `s.split(c, 1)` succeeding with two parts. -/
def splitFirstChar (c : Char) : List Char → Option (List Char × List Char)
  | [] => none
  | x :: xs =>
    if x = c then some ([], xs)
    else
      match splitFirstChar c xs with
      | some (a, b) => some (x :: a, b)
      | none => none

/-- Python `s.split(".", 1)`: `some (before, after)` at the first dot, or
`none` when the string has no dot (Python then returns a 1-element list). -/
def splitFirstDot (s : String) : Option (String × String) :=
  match splitFirstChar '.' s.toList with
  | some (a, b) => some (⟨a⟩, ⟨b⟩)
  | none => none

/-- Everything strictly before the first occurrence of `c` (the whole list
when `c` is absent). -/
def takeBeforeChar (c : Char) : List Char → List Char
  | [] => []
  | x :: xs => if x = c then [] else x :: takeBeforeChar c xs

/-- Everything strictly after the first occurrence of `c` (empty when `c`
is absent). -/
def afterFirstChar (c : Char) : List Char → List Char
  | [] => []
  | x :: xs => if x = c then xs else afterFirstChar c xs

/-- Split a character list on every occurrence of `c` (Python `s.split(c)`
on a non-empty separator: always at least one, possibly empty, field). -/
def splitOnChar (c : Char) : List Char → List (List Char)
  | [] => [[]]
  | x :: xs =>
    if x = c then [] :: splitOnChar c xs
    else
      match splitOnChar c xs with
      | [] => [[x]]
      | g :: gs => (x :: g) :: gs

/-- Value of a hexadecimal digit, as accepted by Python percent-decoding. -/
def hexDigit (c : Char) : Option Nat :=
  if '0' ≤ c ∧ c ≤ '9' then some (c.toNat - '0'.toNat)
  else if 'a' ≤ c ∧ c ≤ 'f' then some (c.toNat - 'a'.toNat + 10)
  else if 'A' ≤ c ∧ c ≤ 'F' then some (c.toNat - 'A'.toNat + 10)
  else none

/-- Python `urllib.parse.unquote_plus` restricted to single-byte escapes:
`+` becomes a space, `%HH` with two hex digits becomes the character with
that code, a malformed `%` sequence is kept literally. -/
def unquotePlus : List Char → List Char
  | [] => []
  | '+' :: rest => ' ' :: unquotePlus rest
  | '%' :: h1 :: h2 :: rest =>
    match hexDigit h1, hexDigit h2 with
    | some a, some b => Char.ofNat (16 * a + b) :: unquotePlus rest
    | _, _ => '%' :: unquotePlus (h1 :: h2 :: rest)
  | c :: rest => c :: unquotePlus rest

/-- Python `urllib.parse.parse_qsl` with default arguments: split the query
on `&`, keep only fields that contain `=` with a non-empty value, and
percent-decode names and values. -/
def parseQSL (q : List Char) : List (String × String) :=
  (splitOnChar '&' q).filterMap fun field =>
    match splitFirstChar '=' field with
    | none => none
    | some (n, v) =>
      if v.isEmpty then none
      else some (⟨unquotePlus n⟩, ⟨unquotePlus v⟩)

/-- CPython urlsplit first removes every tab, carriage return and newline
from the URL (the unsafe-URL-bytes rule shipped in all maintained
interpreter lines). -/
def stripTabCrLf (l : List Char) : List Char :=
  l.filter fun c => !(c = '\t' || c = '\r' || c = '\n')

/-- The network-location component of urlsplit: the characters following
the double slash, up to the first slash, question mark or hash. -/
def netlocChars (l : List Char) : List Char :=
  l.takeWhile fun c => !(c = '/' || c = '?' || c = '#')

/-- The condition under which urlsplit raises ValueError Invalid IPv6
URL: the network location contains a square bracket without its
partner. -/
def hasUnmatchedBracket (netloc : List Char) : Bool :=
  (netloc.contains '[' && !netloc.contains ']') ||
    (netloc.contains ']' && !netloc.contains '[')

/-- Whether `urlparse` raises ValueError Invalid IPv6 URL on this input.
The only callsite is behind the http:// or https:// prefix guard, so
after the scheme colon the remainder starts with the double slash and the
network location follows it.  Modelled against the urlsplit of CPython
3.10: the tab, carriage-return and newline characters are stripped first,
then the unmatched-bracket check runs on the network location; the extra
validation of bracketed hosts added in later interpreter lines is not
modelled. -/
def urlparseRaisesIPv6 (s : String) : Bool :=
  hasUnmatchedBracket
    (netlocChars ((afterFirstChar ':' (stripTabCrLf s.toList)).drop 2))

/-- The query component `urllib.parse.urlparse` extracts from a URL: with
tab, carriage-return and newline characters removed first, the part after
the first `?`, with the fragment (everything from the first `#`) removed;
empty when there is no `?`. -/
def urlQueryChars (s : String) : List Char :=
  afterFirstChar '?' (takeBeforeChar '#' (stripTabCrLf s.toList))

/-- The code's `parse_qs(...)["itemName"][0]` access guarded by
`"itemName" in query_params`: the value of the first `itemName` field of
the URL's query string, if any. -/
def itemNameParam (s : String) : Option String :=
  ((parseQSL (urlQueryChars s)).find? fun p => p.1 == "itemName").map fun p => p.2

/-! ### Identifier Resolver (`parse_extension_id`) -/

/-- Character-level prefix test (Python `str.startswith`). -/
def listStartsWith : List Char → List Char → Bool
  | _, [] => true
  | [], _ :: _ => false
  | x :: xs, y :: ys => x = y && listStartsWith xs ys

/-- Python `extension_id.startswith(("http://", "https://"))`: the input
names an absolute http or https URL. -/
def isHttpUrl (s : String) : Bool :=
  listStartsWith s.toList "http://".toList || listStartsWith s.toList "https://".toList

/-- Semantics of the code's regex match
`re.match(r"([^.]+)\.(.+)", item)`.  The greedy negated class of group 1
is exactly the (dotless, possibly newline-containing) text before the
first dot; the unescaped regex dot of group 2 does not match a newline,
so group 2 is the maximal newline-free run directly after the first dot.
The match — a prefix match, anything past group 2 is discarded — succeeds
precisely when both groups are non-empty. -/
def reMatchDotSplit (item : String) : Option (String × String) :=
  match splitFirstChar '.' item.toList with
  | some (a, b) =>
    if a.isEmpty || (takeBeforeChar '\n' b).isEmpty then none
    else some (⟨a⟩, ⟨takeBeforeChar '\n' b⟩)
  | none => none

/-- Embedding of `parse_extension_id` from vsixget.py.  Failure
(`return None, None` in the code) is `.ok none`; the ValueError that
`urlparse` raises on an unmatched bracket in the network location is not
caught by the code, so it escapes the function and is modelled as
`.error`.  The dotted-identifier branch never touches `urlparse` and
never raises. -/
def parse_extension_id (s : String) : Except String (Option (String × String)) :=
  if isHttpUrl s then
    if urlparseRaisesIPv6 s then .error "Invalid IPv6 URL"
    else
      .ok (match itemNameParam s with
        | some item =>
          match reMatchDotSplit item with
          | some (a, b) => some (a, b)
          | none => none
        | none => none)
  else
    .ok (match splitFirstDot s with
      | some (a, b) => some (a, b)
      | none => none)

/-- Reference definition following the claim's words for the Identifier
Resolver.  The claim asserts totality (it never raises), so this
reference is a plain total function: on an http/https URL, extract the itemName query parameter and
split it on the first dot, failing only when the parameter is absent or
its value has no dot; otherwise split the raw string on the first dot,
failing when there is no dot or a resulting segment is empty. -/
def refParseClaim (s : String) : Option (String × String) :=
  if isHttpUrl s then
    match itemNameParam s with
    | some item => splitFirstDot item
    | none => none
  else
    match splitFirstDot s with
    | some (a, b) => if a.isEmpty || b.isEmpty then none else some (a, b)
    | none => none

/-- Reference definition following the amended claim: on an http/https
URL, first raise the Invalid IPv6 URL error when the network location
(after discarding tab, carriage-return and newline characters) has an
unmatched square bracket; otherwise extract the itemName query parameter
and take the dotless head before its first dot together with the
newline-free run directly after that dot, failing when the parameter is
absent, the value has no dot, or either part is empty — the name part
being truncated at the first newline; on every other input split the raw
string on the first dot without URL parsing, never raising, failing only
when there is no dot — segments may be empty. -/
def refParseAmended (s : String) : Except String (Option (String × String)) :=
  if isHttpUrl s then
    if urlparseRaisesIPv6 s then .error "Invalid IPv6 URL"
    else
      .ok (match itemNameParam s with
        | some item =>
          match splitFirstChar '.' item.toList with
          | some (a, b) =>
            if a.isEmpty || (takeBeforeChar '\n' b).isEmpty then none
            else some (⟨a⟩, ⟨takeBeforeChar '\n' b⟩)
          | none => none
        | none => none)
  else
    .ok (splitFirstDot s)

/-! ### Version Resolver (version lookup loop in `download_extension`) -/

/-- Outcome the metadata endpoint produces for one lookup attempt.
`ok versions` is an HTTP 200 whose JSON body decoded to the given list of
version strings, where the empty list also covers a body with no
`versions` key; `badJson` is a 200 whose body failed to decode (raised in
`response.json()`, caught by the generic except clause); `httpStatus` is a
non-200 status; the rest are the raised transport exceptions. -/
inductive MetaOutcome where
  | ok (versions : List String)
  | badJson
  | httpStatus (code : Nat)
  | timeout
  | connError
  | exc
deriving Repr, DecidableEq

/-- Observable result of the version lookup loop: the `actual_version`
label it leaves behind, how many HTTP attempts were issued, and the
backoff delays slept (in order, in seconds). -/
structure ResolveResult where
  actualVersion : String
  attempts : Nat
  sleeps : List Nat
deriving Repr, DecidableEq

/-- The `for attempt in range(MAX_RETRIES)` version lookup loop of
`download_extension`, as a function of the remaining iteration count
`fuel` and the current attempt index.  A 200 with a non-empty versions
list takes the head and breaks; a 404 breaks; everything else falls
through to the backoff sleep (skipped on the last iteration, mirroring
`if attempt < MAX_RETRIES - 1`) and the next iteration. -/
def resolveLoop (tr : Nat → MetaOutcome) : Nat → Nat → ResolveResult
  | 0, _ => ⟨"latest", 0, []⟩
  | fuel + 1, attempt =>
    let retry : ResolveResult :=
      let r := resolveLoop tr fuel (attempt + 1)
      ⟨r.actualVersion, r.attempts + 1,
        if 0 < fuel then 2 ^ attempt :: r.sleeps else r.sleeps⟩
    match tr attempt with
    | .ok (v :: _) => ⟨v, 1, []⟩
    | .ok [] => retry
    | .badJson => retry
    | .httpStatus code => if code = 404 then ⟨"latest", 1, []⟩ else retry
    | .timeout => retry
    | .connError => retry
    | .exc => retry

/-- The whole version lookup: the loop entered at attempt 0 with
MAX_RETRIES iterations available, starting from `actual_version =
"latest"`. -/
def resolveVersion (tr : Nat → MetaOutcome) : ResolveResult :=
  resolveLoop tr MAX_RETRIES 0

/-! ### Archive Validator (`verify_vsix`) -/

/-- Result of trying to open a byte string as a ZIP archive and enumerate
its entries: clean success, `zipfile.BadZipFile`, or any other
exception. -/
inductive ZipResult where
  | ok
  | badZip
  | otherErr
deriving Repr, DecidableEq

/-- Embedding of `verify_vsix` from vsixget.py.  `tryOpen` stands for
`zipfile.ZipFile(file_path) ... namelist()`; `file` is the content of the
path being checked (`none` = missing).  Every exception is caught inside,
so the embedding is a total Bool-valued function. -/
def verify_vsix (tryOpen : List Nat → ZipResult) (file : Option (List Nat)) : Bool :=
  match file with
  | none => false
  | some bytes =>
    if bytes.length = 0 then false
    else
      match tryOpen bytes with
      | .ok => true
      | .badZip => false
      | .otherErr => false

/-! ### Fetcher (`download_file`) -/

/-- The filesystem slice one run touches: the temporary sibling file and
the final destination file. -/
structure FS where
  temp : Option (List Nat)
  dest : Option (List Nat)
deriving Repr, DecidableEq

/-- Outcome the download endpoint produces for one GET attempt.
`ok bytes` is an HTTP 200 whose body streamed completely; `httpStatus`
is a non-200 response; the exception constructors carry the bytes
already written to the temporary file when the exception was raised
mid-stream (`none` when it was raised before the file was opened). -/
inductive AttemptOutcome where
  | ok (bytes : List Nat)
  | httpStatus (code : Nat)
  | timeout (written : Option (List Nat))
  | connError (written : Option (List Nat))
  | exc (written : Option (List Nat))
deriving Repr, DecidableEq

/-- The outcomes `download_file` retries: the transport exceptions
`requests.exceptions.Timeout` and `requests.exceptions.ConnectionError`. -/
def isTransient : AttemptOutcome → Bool
  | .timeout _ => true
  | .connError _ => true
  | _ => false

/-- Observable result of `download_file`: its boolean return value, the
filesystem afterwards, the number of GET attempts issued, and the backoff
delays slept. -/
structure DLResult where
  success : Bool
  fs : FS
  attempts : Nat
  sleeps : List Nat
deriving Repr, DecidableEq

/-- The `for attempt in range(MAX_RETRIES)` loop body of `download_file`.
On 200 the body is streamed to the temp file and verified: success
commits it onto the destination with `os.replace` and returns True;
verification failure removes the temp file and returns False without
retrying.  A 404 returns False immediately (no cleanup, no sleep).  Any
other status or exception removes the temp file (the code's
`if os.path.exists(temp_path): os.remove(temp_path)`), sleeps
`2 ** attempt` seconds unless this was the last iteration, and moves on
to the next attempt. -/
def downloadLoop (t : List Nat → ZipResult) (tr : Nat → AttemptOutcome) :
    Nat → Nat → FS → DLResult
  | 0, _, fs => ⟨false, fs, 0, []⟩
  | fuel + 1, attempt, fs =>
    let retry : DLResult :=
      let r := downloadLoop t tr fuel (attempt + 1) ⟨none, fs.dest⟩
      ⟨r.success, r.fs, r.attempts + 1,
        if 0 < fuel then 2 ^ attempt :: r.sleeps else r.sleeps⟩
    match tr attempt with
    | .ok bytes =>
      if verify_vsix t (some bytes) then ⟨true, ⟨none, some bytes⟩, 1, []⟩
      else ⟨false, ⟨none, fs.dest⟩, 1, []⟩
    | .httpStatus code => if code = 404 then ⟨false, fs, 1, []⟩ else retry
    | .timeout _ => retry
    | .connError _ => retry
    | .exc _ => retry

/-- Embedding of `download_file` from vsixget.py: any pre-existing
temporary file is removed before the attempt loop starts. -/
def download_file (t : List Nat → ZipResult) (tr : Nat → AttemptOutcome)
    (fs : FS) : DLResult :=
  downloadLoop t tr MAX_RETRIES 0 ⟨none, fs.dest⟩

/-! ### URL construction and the pipeline (`download_extension`) -/

/-- The marketplace API base for one extension, shared by the metadata URL
and both download URLs. -/
def apiBase (publisher extension : String) : String :=
  "https://marketplace.visualstudio.com/_apis/public/gallery/publishers/"
    ++ publisher ++ "/vsextensions/" ++ extension

/-- The `base_url` built when no explicit version was given: the
latest-path-templated package URL. -/
def latestUrl (publisher extension : String) : String :=
  apiBase publisher extension ++ "/latest/vspackage"

/-- The `base_url` built from an explicit version. -/
def versionUrl (publisher extension v : String) : String :=
  apiBase publisher extension ++ "/" ++ v ++ "/vspackage"

/-- The query string appended for the platform-specific candidate URL. -/
def platformQuery : String := "?targetPlatform=linux-x64"

/-- The output filename `publisher.extension-actualVersion.vsix`. -/
def vsixFilename (publisher extension actualVersion : String) : String :=
  publisher ++ "." ++ extension ++ "-" ++ actualVersion ++ ".vsix"

/-- Python truthiness test `if not version:` on the optional `-v`
argument: absent or the empty string. -/
def pyFalsy : Option String → Bool
  | none => true
  | some s => s.isEmpty

/-- Observable result of `download_extension`: its boolean return value,
the filesystem afterwards, the output filename and version label, the
base URL, the candidate URLs attempted in order, and the metadata
lookup's attempt count and slept delays. -/
structure RunResult where
  success : Bool
  fs : FS
  filename : String
  actualVersion : String
  baseUrl : String
  urlsTried : List String
  metaAttempts : Nat
  metaSleeps : List Nat
deriving Repr, DecidableEq

/-- Embedding of `download_extension` from vsixget.py.  `metaTrace` is the
metadata endpoint's oracle, `platTrace` and `univTrace` the download
endpoint's oracles for the platform-specific and the universal candidate
URL.  When no (truthy) version was given, the version lookup runs unless
`skipVersionCheck`, and the base URL is the latest-path template either
way; an explicit version is used directly with no metadata attempt.  The
filename is built before any download.  The platform-specific URL is
tried first and the universal base URL only if that failed. -/
def download_extension (t : List Nat → ZipResult) (metaTrace : Nat → MetaOutcome)
    (platTrace univTrace : Nat → AttemptOutcome)
    (publisher extension : String) (version : Option String)
    (skipVersionCheck : Bool) (fs : FS) : RunResult :=
  let resolved : String × String × Nat × List Nat :=
    if pyFalsy version then
      if skipVersionCheck then ("latest", latestUrl publisher extension, 0, [])
      else
        let r := resolveVersion metaTrace
        (r.actualVersion, latestUrl publisher extension, r.attempts, r.sleeps)
    else
      let v := version.getD ""
      (v, versionUrl publisher extension v, 0, [])
  match resolved with
  | (actualVersion, baseUrl, mAttempts, mSleeps) =>
    let fname := vsixFilename publisher extension actualVersion
    let platUrl := baseUrl ++ platformQuery
    let r1 := download_file t platTrace fs
    if r1.success then
      ⟨true, r1.fs, fname, actualVersion, baseUrl, [platUrl], mAttempts, mSleeps⟩
    else
      let r2 := download_file t univTrace r1.fs
      ⟨r2.success, r2.fs, fname, actualVersion, baseUrl, [platUrl, baseUrl],
        mAttempts, mSleeps⟩

/-! ### Helper lemmas about the attempt loops -/

/-- Backoff bookkeeping: prepending the first delay to the shifted tail of
delays gives the delays of the whole run. -/
theorem range_pow_shift (n attempt : Nat) :
    (if 0 < n then
        2 ^ attempt :: ((List.range (n - 1)).map fun i => 2 ^ (attempt + 1 + i))
      else ((List.range (n - 1)).map fun i => 2 ^ (attempt + 1 + i))) =
    (List.range n).map fun i => 2 ^ (attempt + i) := by
  cases n with
  | zero => simp
  | succ m =>
    simp only [Nat.succ_sub_one, if_pos (Nat.succ_pos m), List.range_succ_eq_map,
      List.map_cons, List.map_map, Nat.add_zero]
    refine congrArg₂ List.cons rfl ?_
    refine List.map_congr_left fun i _ => ?_
    simp only [Function.comp_apply]
    congr 1
    omega

/-- The download attempt loop never issues more attempts than it has fuel. -/
theorem downloadLoop_attempts_le (t : List Nat → ZipResult)
    (tr : Nat → AttemptOutcome) :
    ∀ (fuel attempt : Nat) (fs : FS),
      (downloadLoop t tr fuel attempt fs).attempts ≤ fuel := by
  intro fuel
  induction fuel with
  | zero => intro attempt fs; simp [downloadLoop]
  | succ n ih =>
    intro attempt fs
    simp only [downloadLoop]
    cases htr : tr attempt with
    | ok bytes =>
      by_cases hv : verify_vsix t (some bytes) = true <;> simp [hv, Nat.succ_le_succ]
    | httpStatus code =>
      by_cases hc : code = 404
      · simp [hc]
      · simpa [hc] using Nat.succ_le_succ (ih (attempt + 1) ⟨none, fs.dest⟩)
    | timeout w => simpa using Nat.succ_le_succ (ih (attempt + 1) ⟨none, fs.dest⟩)
    | connError w => simpa using Nat.succ_le_succ (ih (attempt + 1) ⟨none, fs.dest⟩)
    | exc w => simpa using Nat.succ_le_succ (ih (attempt + 1) ⟨none, fs.dest⟩)

/-- If the attempt loop starts with no temporary file on disk, it also
ends with no temporary file on disk, on every control path. -/
theorem downloadLoop_temp_none (t : List Nat → ZipResult)
    (tr : Nat → AttemptOutcome) :
    ∀ (fuel attempt : Nat) (fs : FS), fs.temp = none →
      (downloadLoop t tr fuel attempt fs).fs.temp = none := by
  intro fuel
  induction fuel with
  | zero => intro attempt fs h; simpa [downloadLoop] using h
  | succ n ih =>
    intro attempt fs h
    simp only [downloadLoop]
    cases htr : tr attempt with
    | ok bytes =>
      by_cases hv : verify_vsix t (some bytes) = true <;> simp [hv]
    | httpStatus code =>
      by_cases hc : code = 404
      · simp [hc, h]
      · simpa [hc] using ih (attempt + 1) ⟨none, fs.dest⟩ rfl
    | timeout w => simpa using ih (attempt + 1) ⟨none, fs.dest⟩ rfl
    | connError w => simpa using ih (attempt + 1) ⟨none, fs.dest⟩ rfl
    | exc w => simpa using ih (attempt + 1) ⟨none, fs.dest⟩ rfl

/-- A run of the attempt loop whose every attempt raises a transport
timeout or connection error uses all its fuel, fails, leaves the
filesystem as it found it, and sleeps the exponential backoff delays
between consecutive attempts. -/
theorem downloadLoop_all_transient (t : List Nat → ZipResult)
    (tr : Nat → AttemptOutcome) (h : ∀ i, isTransient (tr i) = true) :
    ∀ (fuel attempt : Nat) (d : Option (List Nat)),
      downloadLoop t tr fuel attempt ⟨none, d⟩ =
        ⟨false, ⟨none, d⟩, fuel, (List.range (fuel - 1)).map fun i => 2 ^ (attempt + i)⟩ := by
  intro fuel
  induction fuel with
  | zero => intro attempt d; simp [downloadLoop]
  | succ n ih =>
    intro attempt d
    simp only [downloadLoop]
    have htr := h attempt
    cases hc : tr attempt with
    | ok bytes => rw [hc] at htr; simp [isTransient] at htr
    | httpStatus code => rw [hc] at htr; simp [isTransient] at htr
    | timeout w =>
      simp only [ih (attempt + 1) d, Nat.succ_sub_one]
      exact congrArg (DLResult.mk false ⟨none, d⟩ (n + 1)) (range_pow_shift n attempt)
    | connError w =>
      simp only [ih (attempt + 1) d, Nat.succ_sub_one]
      exact congrArg (DLResult.mk false ⟨none, d⟩ (n + 1)) (range_pow_shift n attempt)
    | exc w => rw [hc] at htr; simp [isTransient] at htr

/-- An attempt that receives HTTP 404 makes the loop return failure at
once: no cleanup, no sleep, no further attempt. -/
theorem downloadLoop_404 (t : List Nat → ZipResult) (tr : Nat → AttemptOutcome)
    (fuel attempt : Nat) (fs : FS) (h : tr attempt = .httpStatus 404) :
    downloadLoop t tr (fuel + 1) attempt fs = ⟨false, fs, 1, []⟩ := by
  simp [downloadLoop, h]

/-- An attempt that completes with HTTP 200 but fails archive validation
makes the loop delete the temporary file and return failure at once,
leaving the destination untouched. -/
theorem downloadLoop_ok_invalid (t : List Nat → ZipResult)
    (tr : Nat → AttemptOutcome) (fuel attempt : Nat) (fs : FS)
    (bytes : List Nat) (h : tr attempt = .ok bytes)
    (hv : verify_vsix t (some bytes) = false) :
    downloadLoop t tr (fuel + 1) attempt fs = ⟨false, ⟨none, fs.dest⟩, 1, []⟩ := by
  simp [downloadLoop, h, hv]

/-- `download_file` fails fast when the first attempt receives 404. -/
theorem download_file_404_first (t : List Nat → ZipResult)
    (tr : Nat → AttemptOutcome) (fs : FS) (h : tr 0 = .httpStatus 404) :
    download_file t tr fs = ⟨false, ⟨none, fs.dest⟩, 1, []⟩ :=
  downloadLoop_404 t tr 2 0 ⟨none, fs.dest⟩ h

/-- When the platform-specific candidate fails, `download_extension` goes
on to try the universal base URL: both candidates appear, in order. -/
theorem download_extension_tries_both (t : List Nat → ZipResult)
    (mTr : Nat → MetaOutcome) (pTr uTr : Nat → AttemptOutcome)
    (p e : String) (version : Option String) (skip : Bool) (fs : FS)
    (h : (download_file t pTr fs).success = false) :
    (download_extension t mTr pTr uTr p e version skip fs).urlsTried =
      [(download_extension t mTr pTr uTr p e version skip fs).baseUrl ++ platformQuery,
        (download_extension t mTr pTr uTr p e version skip fs).baseUrl] := by
  unfold download_extension
  rcases hres : (if pyFalsy version = true then
      if skip = true then ("latest", latestUrl p e, 0, ([] : List Nat))
      else
        ((resolveVersion mTr).actualVersion, latestUrl p e,
          (resolveVersion mTr).attempts, (resolveVersion mTr).sleeps)
    else (version.getD "", versionUrl p e (version.getD ""), 0, [])) with
    ⟨av, bu, ma, ms⟩
  simp [hres, h]

/-! ### Claim theorems -/

/-- C9: the Archive Validator is a total boolean function of the file it
is shown: it reports valid exactly when the file exists, is non-empty,
and opens as a ZIP archive whose entry listing enumerates cleanly; every
other case (missing file, zero length, BadZipFile, any other structural
error) is reported as invalid rather than raised. -/
theorem c9_verify_vsix_total_boolean (tryOpen : List Nat → ZipResult)
    (file : Option (List Nat)) :
    verify_vsix tryOpen file = true ↔
      ∃ bytes, file = some bytes ∧ bytes ≠ [] ∧ tryOpen bytes = ZipResult.ok := by
  cases file with
  | none => simp [verify_vsix]
  | some bytes =>
    by_cases hb : bytes = []
    · subst hb; simp [verify_vsix]
    · have hlen : ¬(bytes.length = 0) := fun hl => hb (List.length_eq_zero.mp hl)
      cases h : tryOpen bytes <;> simp [verify_vsix, hlen, h, hb]

/-- C10: every input that does not begin with the exact prefix http:// or
https:// — other URL schemes included — is handled by the dotted-identifier
branch of the Identifier Resolver: it is split at its first dot, not
URL-parsed and not rejected as an unsupported URL. -/
theorem c10_non_http_input_split_on_first_dot (s : String)
    (h : isHttpUrl s = false) :
    parse_extension_id s = .ok (splitFirstDot s) := by
  unfold parse_extension_id
  simp only [h, Bool.false_eq_true, if_false]
  rcases splitFirstDot s with _ | ⟨a, b⟩ <;> rfl

/-- C10 witness: the scheme-carrying input ftp://host/a.b is not treated
as a URL and splits into namespace ftp://host/a and name b. -/
theorem c10_witness :
    isHttpUrl "ftp://host/a.b" = false ∧
      parse_extension_id "ftp://host/a.b" = .ok (some ("ftp://host/a", "b")) := by
  refine ⟨by decide, ?_⟩
  rw [c10_non_http_input_split_on_first_dot "ftp://host/a.b" (by decide)]
  rfl

/-- C3 counterexample: the code and the claim's reference definition
disagree on both branches, and the totality part of the claim fails too.
For the plain input ".b" (first segment empty) the code returns the pair
("", "b") while the reference fails.  For the URL input
http://x?itemName=.b the code fails (the regex requires a non-empty head
before the first dot) while the reference, which fails only when the
parameter is absent or dotless, returns ("", "b").  For
http://x?itemName=a.%0Ax the decoded value is a dot followed by a
newline, which the regex dot refuses, so the code fails where the
reference returns the pair of "a" and a newline-led name; for
http://x?itemName=a.b%0Ac the regex stops group 2 at the newline, so the
code returns ("a", "b") where the reference keeps the whole tail.  And at
http://[ the code raises the Invalid IPv6 URL ValueError out of urlparse,
so it is not total as the claim states. -/
theorem c3_counterexample :
    parse_extension_id ".b" = .ok (some ("", "b")) ∧ refParseClaim ".b" = none ∧
      parse_extension_id "http://x?itemName=.b" = .ok none ∧
      refParseClaim "http://x?itemName=.b" = some ("", "b") ∧
      parse_extension_id "http://x?itemName=a.%0Ax" = .ok none ∧
      refParseClaim "http://x?itemName=a.%0Ax" = some ("a", "\nx") ∧
      parse_extension_id "http://x?itemName=a.b%0Ac" = .ok (some ("a", "b")) ∧
      refParseClaim "http://x?itemName=a.b%0Ac" = some ("a", "b\nc") ∧
      parse_extension_id "http://[" = .error "Invalid IPv6 URL" := by
  refine ⟨by rfl, by rfl, by rfl, by rfl, by rfl, by rfl, by rfl, by rfl, by rfl⟩

/-- C3 amended: the Identifier Resolver equals this reference definition:
for http/https URL inputs it raises the Invalid IPv6 URL error exactly
when the network location has an unmatched square bracket; otherwise it
extracts the itemName query parameter and pairs the dotless head before
the value's first dot with the newline-free run directly after that dot,
failing when the parameter is absent, the value has no dot, or either
part is empty, and truncating the name part at the first newline; for
every other input it splits the raw string on the first dot, never
raising, failing only when there is no dot — segments of the split may be
empty and are returned as such. -/
theorem c3_resolver_equals_amended_reference (s : String) :
    parse_extension_id s = refParseAmended s := by
  unfold parse_extension_id refParseAmended reMatchDotSplit
  by_cases h : isHttpUrl s = true
  · simp only [h, if_true]
    by_cases hr : urlparseRaisesIPv6 s = true
    · simp only [hr, if_true]
    · simp only [hr, Bool.false_eq_true, if_false]
      rcases hi : itemNameParam s with _ | item <;> simp only [hi]
      rcases hsp : splitFirstChar '.' item.toList with _ | ⟨a, b⟩ <;>
        simp only [hsp]
      by_cases he : (a.isEmpty || (takeBeforeChar '\n' b).isEmpty) = true <;>
        simp [he]
  · simp only [h, Bool.false_eq_true, if_false]
    rcases splitFirstDot s with _ | ⟨a, b⟩ <;> rfl

/-- C2: a download attempt that completes with HTTP 200 but whose bytes
fail archive validation makes the Fetcher delete the temporary file and
return failure at once — one attempt, no sleep, no retry of that
completed download — leaving the destination file exactly as it was; the
pipeline then treats only that candidate as failed and moves on to the
next candidate URL. -/
theorem c2_validation_failure_discards_temp_no_retry :
    (∀ (t : List Nat → ZipResult) (tr : Nat → AttemptOutcome)
        (fuel attempt : Nat) (fs : FS) (bytes : List Nat),
      tr attempt = .ok bytes → verify_vsix t (some bytes) = false →
      downloadLoop t tr (fuel + 1) attempt fs = ⟨false, ⟨none, fs.dest⟩, 1, []⟩) ∧
    (∀ (t : List Nat → ZipResult) (tr : Nat → AttemptOutcome) (fs : FS)
        (bytes : List Nat),
      tr 0 = .ok bytes → verify_vsix t (some bytes) = false →
      download_file t tr fs = ⟨false, ⟨none, fs.dest⟩, 1, []⟩) ∧
    (∀ (t : List Nat → ZipResult) (mTr : Nat → MetaOutcome)
        (pTr uTr : Nat → AttemptOutcome) (p e : String)
        (version : Option String) (skip : Bool) (fs : FS) (bytes : List Nat),
      pTr 0 = .ok bytes → verify_vsix t (some bytes) = false →
      (download_extension t mTr pTr uTr p e version skip fs).urlsTried =
        [(download_extension t mTr pTr uTr p e version skip fs).baseUrl ++
            platformQuery,
          (download_extension t mTr pTr uTr p e version skip fs).baseUrl]) := by
  refine ⟨?_, ?_, ?_⟩
  · exact fun t tr fuel attempt fs bytes h hv =>
      downloadLoop_ok_invalid t tr fuel attempt fs bytes h hv
  · intro t tr fs bytes h hv
    exact downloadLoop_ok_invalid t tr 2 0 ⟨none, fs.dest⟩ bytes h hv
  · intro t mTr pTr uTr p e version skip fs bytes h hv
    apply download_extension_tries_both
    have e : download_file t pTr fs = ⟨false, ⟨none, fs.dest⟩, 1, []⟩ :=
      downloadLoop_ok_invalid t pTr 2 0 ⟨none, fs.dest⟩ bytes h hv
    rw [e]

/-- C2 witness: a concrete 200 download whose bytes the ZIP oracle
rejects is discarded after exactly one attempt, the temp file disappears,
and a pre-existing destination file survives unchanged. -/
theorem c2_witness :
    verify_vsix (fun _ => ZipResult.badZip) (some [5]) = false ∧
      download_file (fun _ => ZipResult.badZip) (fun _ => AttemptOutcome.ok [5])
          ⟨some [7], some [9]⟩ = ⟨false, ⟨none, some [9]⟩, 1, []⟩ :=
  ⟨by decide,
    c2_validation_failure_discards_temp_no_retry.2.1 _ _ _ _ rfl (by decide)⟩

/-- C4: the Fetcher issues at most MAX_RETRIES = 3 GET attempts per
candidate URL; when every attempt raises a transport timeout or
connection error it uses all three attempts with exponential backoff
sleeps of 1s then 2s between consecutive attempts (the 2 ^ attempt
pattern); an HTTP 404 ends the candidate at once with no retry and no
sleep; and a 404 on the platform-specific candidate makes the pipeline
advance to the universal candidate URL instead of aborting. -/
theorem c4_retry_cap_backoff_and_404_fail_fast :
    (∀ (t : List Nat → ZipResult) (tr : Nat → AttemptOutcome) (fs : FS),
      (download_file t tr fs).attempts ≤ MAX_RETRIES) ∧
    (∀ (t : List Nat → ZipResult) (tr : Nat → AttemptOutcome) (fs : FS),
      (∀ i, isTransient (tr i) = true) →
      download_file t tr fs = ⟨false, ⟨none, fs.dest⟩, 3, [1, 2]⟩) ∧
    (∀ (t : List Nat → ZipResult) (tr : Nat → AttemptOutcome)
        (fuel attempt : Nat) (fs : FS),
      tr attempt = .httpStatus 404 →
      downloadLoop t tr (fuel + 1) attempt fs = ⟨false, fs, 1, []⟩) ∧
    (∀ (t : List Nat → ZipResult) (mTr : Nat → MetaOutcome)
        (pTr uTr : Nat → AttemptOutcome) (p e : String)
        (version : Option String) (skip : Bool) (fs : FS),
      pTr 0 = .httpStatus 404 →
      (download_extension t mTr pTr uTr p e version skip fs).urlsTried =
        [(download_extension t mTr pTr uTr p e version skip fs).baseUrl ++
            platformQuery,
          (download_extension t mTr pTr uTr p e version skip fs).baseUrl]) := by
  refine ⟨?_, ?_, ?_, ?_⟩
  · exact fun t tr fs => downloadLoop_attempts_le t tr MAX_RETRIES 0 ⟨none, fs.dest⟩
  · intro t tr fs h
    have e : download_file t tr fs =
        ⟨false, ⟨none, fs.dest⟩, MAX_RETRIES,
          (List.range (MAX_RETRIES - 1)).map fun i => 2 ^ (0 + i)⟩ :=
      downloadLoop_all_transient t tr h MAX_RETRIES 0 fs.dest
    rw [e]
    norm_num [MAX_RETRIES, List.range_succ]
  · exact fun t tr fuel attempt fs h => downloadLoop_404 t tr fuel attempt fs h
  · intro t mTr pTr uTr p e version skip fs h
    apply download_extension_tries_both
    rw [download_file_404_first t pTr fs h]

/-- C4 witness: concrete traces exercising the attempt cap, the
all-transient backoff run, the 404 fail-fast, and the advance to the
universal candidate. -/
theorem c4_witness :
    (download_file (fun _ => ZipResult.ok) (fun _ => AttemptOutcome.httpStatus 500)
        ⟨none, none⟩).attempts ≤ MAX_RETRIES ∧
    download_file (fun _ => ZipResult.ok) (fun _ => AttemptOutcome.timeout none)
        ⟨none, some [9]⟩ = ⟨false, ⟨none, some [9]⟩, 3, [1, 2]⟩ ∧
    downloadLoop (fun _ => ZipResult.ok) (fun _ => AttemptOutcome.httpStatus 404)
        (2 + 1) 0 ⟨some [7], none⟩ = ⟨false, ⟨some [7], none⟩, 1, []⟩ ∧
    (download_extension (fun _ => ZipResult.ok) (fun _ => MetaOutcome.ok ["1.0"])
        (fun _ => AttemptOutcome.httpStatus 404) (fun _ => AttemptOutcome.ok [5])
        "p" "e" none false ⟨none, none⟩).urlsTried =
      [(download_extension (fun _ => ZipResult.ok) (fun _ => MetaOutcome.ok ["1.0"])
          (fun _ => AttemptOutcome.httpStatus 404) (fun _ => AttemptOutcome.ok [5])
          "p" "e" none false ⟨none, none⟩).baseUrl ++ platformQuery,
        (download_extension (fun _ => ZipResult.ok) (fun _ => MetaOutcome.ok ["1.0"])
          (fun _ => AttemptOutcome.httpStatus 404) (fun _ => AttemptOutcome.ok [5])
          "p" "e" none false ⟨none, none⟩).baseUrl] :=
  ⟨c4_retry_cap_backoff_and_404_fail_fast.1 _ _ _,
    c4_retry_cap_backoff_and_404_fail_fast.2.1 _ _ _ (fun _ => rfl),
    c4_retry_cap_backoff_and_404_fail_fast.2.2.1 _ _ 2 0 _ rfl,
    c4_retry_cap_backoff_and_404_fail_fast.2.2.2 _ _ _ _ _ _ _ _ _ rfl⟩

/-- C5: no temporary file survives a completed run of the pipeline,
whether it reports success or failure — the commit rename, the
validation-failure deletion, the per-attempt exception cleanup and the
pre-loop removal together keep the temp slot empty at exit; moreover a
pre-existing temp file is irrelevant to (because removed before) the
first attempt. -/
theorem c5_no_temp_file_survives :
    (∀ (t : List Nat → ZipResult) (mTr : Nat → MetaOutcome)
        (pTr uTr : Nat → AttemptOutcome) (p e : String)
        (version : Option String) (skip : Bool) (fs : FS),
      (download_extension t mTr pTr uTr p e version skip fs).fs.temp = none) ∧
    (∀ (t : List Nat → ZipResult) (tr : Nat → AttemptOutcome) (fs : FS),
      download_file t tr fs = download_file t tr ⟨none, fs.dest⟩) := by
  constructor
  · intro t mTr pTr uTr p e version skip fs
    unfold download_extension
    rcases hres : (if pyFalsy version = true then
        if skip = true then ("latest", latestUrl p e, 0, ([] : List Nat))
        else
          ((resolveVersion mTr).actualVersion, latestUrl p e,
            (resolveVersion mTr).attempts, (resolveVersion mTr).sleeps)
      else (version.getD "", versionUrl p e (version.getD ""), 0, [])) with
      ⟨av, bu, ma, ms⟩
    by_cases h1 : (download_file t pTr fs).success = true
    · simp only [hres, h1, if_true]
      exact downloadLoop_temp_none t pTr MAX_RETRIES 0 ⟨none, fs.dest⟩ rfl
    · simp only [hres]
      rw [if_neg h1]
      exact downloadLoop_temp_none t uTr MAX_RETRIES 0
        ⟨none, (download_file t pTr fs).fs.dest⟩ rfl
  · intro t tr fs
    rfl

/-- A version lookup attempt answered 404 ends the lookup loop at once:
one attempt, no sleep, label latest. -/
theorem resolveLoop_404 (tr : Nat → MetaOutcome) (fuel attempt : Nat)
    (h : tr attempt = .httpStatus 404) :
    resolveLoop tr (fuel + 1) attempt = ⟨"latest", 1, []⟩ := by
  simp [resolveLoop, h]

/-- A version lookup attempt answered 200 with a non-empty versions list
ends the lookup loop at once with the head entry. -/
theorem resolveLoop_head (tr : Nat → MetaOutcome) (fuel attempt : Nat)
    (v : String) (rest : List String) (h : tr attempt = .ok (v :: rest)) :
    resolveLoop tr (fuel + 1) attempt = ⟨v, 1, []⟩ := by
  simp [resolveLoop, h]

/-- C1 counterexample: with no explicit version and the metadata endpoint
answering 404 on the first attempt, the resolver does stop at once (one
attempt, no sleep) but the pipeline is not stopped with a NotFound
outcome: it continues, downloads under the latest-templated URL, reports
overall success, and names the file with the fallback label latest. -/
theorem c1_counterexample :
    (download_extension (fun _ => ZipResult.ok) (fun _ => MetaOutcome.httpStatus 404)
        (fun _ => AttemptOutcome.ok [1]) (fun _ => AttemptOutcome.exc none)
        "p" "e" none false ⟨none, none⟩).metaAttempts = 1 ∧
    (download_extension (fun _ => ZipResult.ok) (fun _ => MetaOutcome.httpStatus 404)
        (fun _ => AttemptOutcome.ok [1]) (fun _ => AttemptOutcome.exc none)
        "p" "e" none false ⟨none, none⟩).metaSleeps = [] ∧
    (download_extension (fun _ => ZipResult.ok) (fun _ => MetaOutcome.httpStatus 404)
        (fun _ => AttemptOutcome.ok [1]) (fun _ => AttemptOutcome.exc none)
        "p" "e" none false ⟨none, none⟩).success = true ∧
    (download_extension (fun _ => ZipResult.ok) (fun _ => MetaOutcome.httpStatus 404)
        (fun _ => AttemptOutcome.ok [1]) (fun _ => AttemptOutcome.exc none)
        "p" "e" none false ⟨none, none⟩).filename = "p.e-latest.vsix" :=
  ⟨by decide, by decide, by decide, by decide⟩

/-- C1 amended: when no explicit version is supplied and the metadata
endpoint answers 404, the Version Resolver stops immediately — exactly
one attempt, no backoff sleep — but it does not surface a NotFound
outcome: the pipeline silently continues with the fallback label latest,
building the latest-templated base URL and going on to attempt the
candidate download URLs. -/
theorem c1_meta_404_stops_at_once_then_latest_fallback
    (t : List Nat → ZipResult) (mTr : Nat → MetaOutcome)
    (pTr uTr : Nat → AttemptOutcome) (p e : String) (version : Option String)
    (fs : FS) (hv : pyFalsy version = true)
    (h404 : mTr 0 = .httpStatus 404) :
    (download_extension t mTr pTr uTr p e version false fs).metaAttempts = 1 ∧
    (download_extension t mTr pTr uTr p e version false fs).metaSleeps = [] ∧
    (download_extension t mTr pTr uTr p e version false fs).actualVersion =
      "latest" ∧
    (download_extension t mTr pTr uTr p e version false fs).baseUrl =
      latestUrl p e ∧
    (download_extension t mTr pTr uTr p e version false fs).urlsTried ≠ [] := by
  have e : resolveVersion mTr = ⟨"latest", 1, []⟩ := resolveLoop_404 mTr 2 0 h404
  unfold download_extension
  by_cases h1 : (download_file t pTr fs).success = true <;>
    simp [hv, e, h1]

/-- C1 witness: the amended behavior at a concrete run (404 metadata
answer, then a clean platform-specific download). -/
theorem c1_witness :
    pyFalsy none = true ∧
    (download_extension (fun _ => ZipResult.ok) (fun _ => MetaOutcome.httpStatus 404)
        (fun _ => AttemptOutcome.ok [1]) (fun _ => AttemptOutcome.exc none)
        "p" "e" none false ⟨none, none⟩).metaAttempts = 1 ∧
    (download_extension (fun _ => ZipResult.ok) (fun _ => MetaOutcome.httpStatus 404)
        (fun _ => AttemptOutcome.ok [1]) (fun _ => AttemptOutcome.exc none)
        "p" "e" none false ⟨none, none⟩).urlsTried ≠ [] :=
  ⟨rfl,
    (c1_meta_404_stops_at_once_then_latest_fallback _ _ _ _ "p" "e" none _ rfl
      rfl).1,
    (c1_meta_404_stops_at_once_then_latest_fallback _ _ _ _ "p" "e" none _ rfl
      rfl).2.2.2.2⟩

/-- C6: an explicit version is used directly — no metadata attempt is
issued, no backoff slept, and the version-qualified base URL is built
from it; without an explicit version, a 200 metadata answer whose decoded
payload has a non-empty versions list resolves to its head entry
versions[0].version, with no re-sorting, and that entry becomes the
version label of the output filename. -/
theorem c6_explicit_direct_and_head_selection :
    (∀ (t : List Nat → ZipResult) (mTr : Nat → MetaOutcome)
        (pTr uTr : Nat → AttemptOutcome) (p e : String)
        (version : Option String) (skip : Bool) (fs : FS),
      pyFalsy version = false →
      (download_extension t mTr pTr uTr p e version skip fs).metaAttempts = 0 ∧
      (download_extension t mTr pTr uTr p e version skip fs).metaSleeps = [] ∧
      (download_extension t mTr pTr uTr p e version skip fs).actualVersion =
        version.getD "" ∧
      (download_extension t mTr pTr uTr p e version skip fs).baseUrl =
        versionUrl p e (version.getD "")) ∧
    (∀ (tr : Nat → MetaOutcome) (fuel attempt : Nat) (v : String)
        (rest : List String),
      tr attempt = .ok (v :: rest) →
      resolveLoop tr (fuel + 1) attempt = ⟨v, 1, []⟩) ∧
    (∀ (t : List Nat → ZipResult) (mTr : Nat → MetaOutcome)
        (pTr uTr : Nat → AttemptOutcome) (p e : String)
        (version : Option String) (fs : FS) (v : String) (rest : List String),
      pyFalsy version = true → mTr 0 = .ok (v :: rest) →
      (download_extension t mTr pTr uTr p e version false fs).actualVersion = v ∧
      (download_extension t mTr pTr uTr p e version false fs).filename =
        vsixFilename p e v) := by
  refine ⟨?_, ?_, ?_⟩
  · intro t mTr pTr uTr p e version skip fs hv
    unfold download_extension
    by_cases h1 : (download_file t pTr fs).success = true <;>
      simp [hv, h1]
  · exact fun tr fuel attempt v rest h => resolveLoop_head tr fuel attempt v rest h
  · intro t mTr pTr uTr p e version fs v rest hv h
    have e : resolveVersion mTr = ⟨v, 1, []⟩ := resolveLoop_head mTr 2 0 v rest h
    unfold download_extension
    by_cases h1 : (download_file t pTr fs).success = true <;>
      simp [hv, e, h1]

/-- C6 witness: an explicit version 1.2.3 issues no metadata attempt and
builds the version-qualified URL; the payload with versions 3.2.1 then
3.2.0 resolves to 3.2.1. -/
theorem c6_witness :
    pyFalsy (some "1.2.3") = false ∧
    (download_extension (fun _ => ZipResult.ok) (fun _ => MetaOutcome.exc)
        (fun _ => AttemptOutcome.ok [5]) (fun _ => AttemptOutcome.exc none)
        "p" "e" (some "1.2.3") false ⟨none, none⟩).metaAttempts = 0 ∧
    resolveLoop (fun _ => MetaOutcome.ok ["3.2.1", "3.2.0"]) (2 + 1) 0 =
      ⟨"3.2.1", 1, []⟩ ∧
    (download_extension (fun _ => ZipResult.ok)
        (fun _ => MetaOutcome.ok ["3.2.1", "3.2.0"])
        (fun _ => AttemptOutcome.ok [5]) (fun _ => AttemptOutcome.exc none)
        "p" "e" none false ⟨none, none⟩).actualVersion = "3.2.1" :=
  ⟨rfl,
    (c6_explicit_direct_and_head_selection.1 _ _ _ _ "p" "e" (some "1.2.3")
      false _ rfl).1,
    c6_explicit_direct_and_head_selection.2.1 _ 2 0 "3.2.1" ["3.2.0"] rfl,
    (c6_explicit_direct_and_head_selection.2.2 _ _ _ _ "p" "e" none _ "3.2.1"
      ["3.2.0"] rfl rfl).1⟩

/-- C7: the candidate URLs are attempted in the fixed order
platform-specific (targetPlatform query appended to the base URL) first,
universal base URL second — the attempted list is either just the
platform URL (first candidate succeeded) or exactly both in that order —
and the output filename is always publisher.extension-versionLabel.vsix,
computed before any download, hence identical no matter which candidate
or trace succeeds. -/
theorem c7_candidate_order_and_stable_filename
    (t : List Nat → ZipResult) (mTr : Nat → MetaOutcome)
    (pTr uTr : Nat → AttemptOutcome) (p e : String) (version : Option String)
    (skip : Bool) (fs : FS) :
    ((download_extension t mTr pTr uTr p e version skip fs).urlsTried =
        [(download_extension t mTr pTr uTr p e version skip fs).baseUrl ++
          platformQuery] ∨
      (download_extension t mTr pTr uTr p e version skip fs).urlsTried =
        [(download_extension t mTr pTr uTr p e version skip fs).baseUrl ++
            platformQuery,
          (download_extension t mTr pTr uTr p e version skip fs).baseUrl]) ∧
    (download_extension t mTr pTr uTr p e version skip fs).filename =
      vsixFilename p e
        (download_extension t mTr pTr uTr p e version skip fs).actualVersion ∧
    (∀ (t' : List Nat → ZipResult) (pTr' uTr' : Nat → AttemptOutcome) (fs' : FS),
      (download_extension t mTr pTr uTr p e version skip fs).filename =
        (download_extension t' mTr pTr' uTr' p e version skip fs').filename) := by
  unfold download_extension
  rcases hres : (if pyFalsy version = true then
      if skip = true then ("latest", latestUrl p e, 0, ([] : List Nat))
      else
        ((resolveVersion mTr).actualVersion, latestUrl p e,
          (resolveVersion mTr).attempts, (resolveVersion mTr).sleeps)
    else (version.getD "", versionUrl p e (version.getD ""), 0, [])) with
    ⟨av, bu, ma, ms⟩
  refine ⟨?_, ?_, ?_⟩
  · by_cases h1 : (download_file t pTr fs).success = true <;>
      simp [hres, h1]
  · by_cases h1 : (download_file t pTr fs).success = true <;>
      simp [hres, h1, vsixFilename]
  · intro t' pTr' uTr' fs'
    by_cases h1 : (download_file t pTr fs).success = true <;>
      by_cases h1' : (download_file t' pTr' fs').success = true <;>
        simp [hres, h1, h1']

/-- C8: with no explicit version, the metadata answer cannot influence
which download URLs are attempted: the base URL is the latest-path
template whatever the lookup returned, two runs differing only in the
metadata oracle attempt identical URL lists and produce identical
download outcomes (success flag and filesystem), and the discovered
version string only enters the version label inside the output
filename. -/
theorem c8_metadata_cannot_influence_urls
    (t : List Nat → ZipResult) (m1 m2 : Nat → MetaOutcome)
    (pTr uTr : Nat → AttemptOutcome) (p e : String) (version : Option String)
    (skip : Bool) (fs : FS) (hv : pyFalsy version = true) :
    (download_extension t m1 pTr uTr p e version skip fs).baseUrl =
      latestUrl p e ∧
    (download_extension t m1 pTr uTr p e version skip fs).urlsTried =
      (download_extension t m2 pTr uTr p e version skip fs).urlsTried ∧
    (download_extension t m1 pTr uTr p e version skip fs).success =
      (download_extension t m2 pTr uTr p e version skip fs).success ∧
    (download_extension t m1 pTr uTr p e version skip fs).fs =
      (download_extension t m2 pTr uTr p e version skip fs).fs ∧
    (download_extension t m1 pTr uTr p e version skip fs).filename =
      vsixFilename p e
        (download_extension t m1 pTr uTr p e version skip fs).actualVersion := by
  unfold download_extension
  by_cases hs : skip = true
  · by_cases h1 : (download_file t pTr fs).success = true <;>
      simp [hv, hs, h1, vsixFilename]
  · rcases hres1 : resolveVersion m1 with ⟨av1, ma1, ms1⟩
    rcases hres2 : resolveVersion m2 with ⟨av2, ma2, ms2⟩
    by_cases h1 : (download_file t pTr fs).success = true <;>
      simp [hv, hs, hres1, hres2, h1, vsixFilename]

/-- C8 witness: two concrete runs that differ only in the metadata answer
(a discovered version 9.9 versus a 500 status falling back to latest)
attempt the same URLs. -/
theorem c8_witness :
    pyFalsy none = true ∧
    (download_extension (fun _ => ZipResult.ok) (fun _ => MetaOutcome.ok ["9.9"])
        (fun _ => AttemptOutcome.httpStatus 404) (fun _ => AttemptOutcome.ok [5])
        "p" "e" none false ⟨none, none⟩).urlsTried =
      (download_extension (fun _ => ZipResult.ok) (fun _ => MetaOutcome.httpStatus 500)
        (fun _ => AttemptOutcome.httpStatus 404) (fun _ => AttemptOutcome.ok [5])
        "p" "e" none false ⟨none, none⟩).urlsTried :=
  ⟨rfl,
    (c8_metadata_cannot_influence_urls _ _ _ _ _ "p" "e" none false _ rfl).2.1⟩
